import Mathlib

/-!
Shallow embedding of the deterministic simulation core in `src/game/engine.ts`
(the `GameEngine` class and the `mulberry32` generator).

Numeric conventions: JavaScript number arithmetic is modelled over `ℚ`
(exact rationals); the 32-bit integer pipeline of the PRNG is modelled over
`Nat` reduced modulo 2^32 (the uint32 bit pattern of the JS int32 values).
`Math.cos` / `Math.sin` are abstract parameters `f g : ℚ → ℚ` of every
operation that uses them, so every definition stays executable.
-/

namespace Engine

/-- Bit pattern (as `Nat < 2^32`) of `seed | 0` for an integral JS number. -/
def toU32 (n : ℤ) : ℕ := (n % 4294967296).toNat

/-- One call of the closure returned by `mulberry32` (src/game/engine.ts
lines 20-28): returns the value in `[0,1)` and the updated captured state.
Every `|0`, `Math.imul`, `>>>`, `^`, `|` is modelled on uint32 bit patterns. -/
def mulberry32Step (s0 : ℕ) : ℚ × ℕ :=
  let sN := s0 % 4294967296
  let s := (sN + 0x6D2B79F5) % 4294967296
  let t1 := (Nat.xor s (s >>> 15)) * (s ||| 1) % 4294967296
  let t2 := Nat.xor ((t1 + (Nat.xor t1 (t1 >>> 7)) * (t1 ||| 61) % 4294967296) % 4294967296) t1
  let out := Nat.xor t2 (t2 >>> 14)
  ((out : ℚ) / 4294967296, s)

/-- The exact rational value of the IEEE-754 double `Math.PI`. -/
def piQ : ℚ := 884279719003555 / 281474976710656

structure Vec2 where
  x : ℚ
  y : ℚ
deriving DecidableEq

structure Ship where
  pos : Vec2
  heading : ℚ
  radius : ℚ
  alive : Bool
deriving DecidableEq

structure Asteroid where
  pos : Vec2
  vel : Vec2
  radius : ℚ
deriving DecidableEq

/-- The mutable state of one `GameEngine` instance (canvas/raf/key handles
and the callback are external resources, not simulation state). -/
structure EngineState where
  rng : ℕ
  width : ℚ
  height : ℚ
  ship : Ship
  asteroids : List Asteroid
  elapsed : ℚ
  spawnTimer : ℚ
deriving DecidableEq

/-- Key state relevant to steering: whether a left key (ArrowLeft / a) and a
right key (ArrowRight / d) is currently held. -/
structure KeyState where
  left : Bool
  right : Bool
deriving DecidableEq

/-- `(keys.has left ? -1 : 0) + (keys.has right ? 1 : 0)` (lines 141-143). -/
def steering (k : KeyState) : ℚ :=
  (if k.left then -1 else 0) + (if k.right then 1 else 0)

/-- The `GameEngine` constructor (lines 62-76): seed the generator, draw the
initial heading, place the ship at the field centre.  Performs no input
validation. -/
def initState (w h : ℚ) (seed : ℤ) : EngineState :=
  let rn := mulberry32Step (toU32 seed)
  { rng := rn.2, width := w, height := h,
    ship := { pos := ⟨w / 2, h / 2⟩, heading := rn.1 * piQ * 2,
              radius := 12, alive := true },
    asteroids := [], elapsed := 0, spawnTimer := 0 }

/-- `resize` (lines 101-104): unconditionally overwrites the dimensions. -/
def resize (s : EngineState) (w h : ℚ) : EngineState :=
  { s with width := w, height := h }

/-- `difficulty` getter (lines 120-122): `Math.floor(elapsed / 10)`. -/
def difficulty (elapsed : ℚ) : ℤ := ⌊elapsed / 10⌋

/-- `spawnInterval` getter (lines 124-127):
`Math.max(0.3, 1.5 - difficulty * 0.15)`. -/
def spawnInterval (elapsed : ℚ) : ℚ :=
  max (3/10) (3/2 - (difficulty elapsed : ℚ) * (15/100))

/-- `speedMultiplier` getter (lines 129-131): `1 + difficulty * 0.25`. -/
def speedMultiplier (elapsed : ℚ) : ℚ := 1 + (difficulty elapsed : ℚ) * (1/4)

/-- One coordinate of `wrap` (lines 230-235): a single `± extent`
translation per side, with closed-interval comparisons. -/
def wrapCoord (w x : ℚ) : ℚ :=
  let x1 := if x < 0 then x + w else x
  if w < x1 then x1 - w else x1

/-- `wrap` applied to a position (agent only). -/
def wrapV (w h : ℚ) (p : Vec2) : Vec2 := ⟨wrapCoord w p.x, wrapCoord h p.y⟩

/-- Heading update of step 1 (lines 140-150) together with the generator
state after it: manual steering skips the generator, autopilot consumes one
draw. -/
def headingAfter (k : KeyState) (s : EngineState) (dt : ℚ) : ℚ × ℕ :=
  if steering k = 0 then
    ((s.ship.heading + ((mulberry32Step s.rng).1 - 1/2) * 2 * (3/2) * dt),
      (mulberry32Step s.rng).2)
  else (s.ship.heading + steering k * 4 * dt, s.rng)

/-- The raw parameters drawn for one spawned asteroid, in draw order. -/
structure SpawnRec where
  edge : ℤ
  radius : ℚ
  speed : ℚ
  spread : ℚ
  offset : ℚ
deriving DecidableEq

/-- `spawnAsteroid` (lines 194-226): five generator draws in fixed order
(edge, radius, speed factor, spread, edge offset), then an edge-dependent
position/velocity.  `f` models `Math.cos`, `g` models `Math.sin`. -/
def spawnAsteroid (f g : ℚ → ℚ) (w h elapsed : ℚ) (rng : ℕ) :
    Asteroid × SpawnRec × ℕ :=
  let d1 := mulberry32Step rng
  let edge : ℤ := ⌊d1.1 * 4⌋
  let d2 := mulberry32Step d1.2
  let radius := 15 + d2.1 * 25
  let d3 := mulberry32Step d2.2
  let speed := 80 * speedMultiplier elapsed * (1/2 + d3.1 * (1/2))
  let d4 := mulberry32Step d3.2
  let spread := (d4.1 - 1/2) * (6/5)
  let d5 := mulberry32Step d4.2
  if edge = 0 then
    (⟨⟨d5.1 * w, -radius⟩, ⟨g spread * speed, f spread * speed⟩, radius⟩,
      ⟨edge, radius, speed, spread, d5.1 * w⟩, d5.2)
  else if edge = 1 then
    (⟨⟨w + radius, d5.1 * h⟩, ⟨-(f spread) * speed, g spread * speed⟩, radius⟩,
      ⟨edge, radius, speed, spread, d5.1 * h⟩, d5.2)
  else if edge = 2 then
    (⟨⟨d5.1 * w, h + radius⟩, ⟨g spread * speed, -(f spread) * speed⟩, radius⟩,
      ⟨edge, radius, speed, spread, d5.1 * w⟩, d5.2)
  else
    (⟨⟨-radius, d5.1 * h⟩, ⟨f spread * speed, g spread * speed⟩, radius⟩,
      ⟨edge, radius, speed, spread, d5.1 * h⟩, d5.2)

/-- Step 4 of `update` (lines 164-168): advance one asteroid. -/
def moveAsteroid (dt : ℚ) (a : Asteroid) : Asteroid :=
  { a with pos := ⟨a.pos.x + a.vel.x * dt, a.pos.y + a.vel.y * dt⟩ }

/-- The culling predicate of step 6 (lines 181-189): keep an asteroid iff it
is strictly inside the field extended by the 100px margin on every side. -/
def keepAsteroid (w h : ℚ) (a : Asteroid) : Bool :=
  decide (-100 < a.pos.x) && decide (a.pos.x < w + 100) &&
  decide (-100 < a.pos.y) && decide (a.pos.y < h + 100)

/-- The circle-vs-circle test of step 5 (lines 170-179): strict
squared-distance comparison. -/
def hitShip (sh : Ship) (a : Asteroid) : Bool :=
  decide ((sh.pos.x - a.pos.x) * (sh.pos.x - a.pos.x) +
    (sh.pos.y - a.pos.y) * (sh.pos.y - a.pos.y) < (sh.radius + a.radius) ^ 2)

/-- Steps 1-4 of `update` (lines 138-168), on a live ship: advance elapsed
time, steer, move and wrap the ship, run the spawn timer, move every
asteroid.  Returns the intermediate state inspected by the collision and
culling phases, plus the record of a spawn if one happened. -/
def integrate (f g : ℚ → ℚ) (k : KeyState) (s : EngineState) (dt : ℚ) :
    EngineState × Option SpawnRec :=
  let el := s.elapsed + dt
  let hr := headingAfter k s dt
  let pos := wrapV s.width s.height
    ⟨s.ship.pos.x + f hr.1 * 120 * dt, s.ship.pos.y + g hr.1 * 120 * dt⟩
  let sa := s.spawnTimer + dt
  let spr : ℚ × List Asteroid × ℕ × Option SpawnRec :=
    if spawnInterval el ≤ sa then
      let asp := spawnAsteroid f g s.width s.height el hr.2
      (0, s.asteroids ++ [asp.1], asp.2.2, some asp.2.1)
    else (sa, s.asteroids, hr.2, none)
  ({ rng := spr.2.2.1, width := s.width, height := s.height,
     ship := { pos := pos, heading := hr.1, radius := s.ship.radius,
               alive := s.ship.alive },
     asteroids := spr.2.1.map (moveAsteroid dt),
     elapsed := el, spawnTimer := spr.1 }, spr.2.2.2)

/-- `update` (lines 135-190).  The second component records the single
`onGameOver(Math.floor(elapsed))` invocation when the first collision
happens this step; the third records the spawn draw of this step.  A dead
ship returns immediately (line 136). -/
def update (f g : ℚ → ℚ) (k : KeyState) (s : EngineState) (dt : ℚ) :
    EngineState × Option ℤ × Option SpawnRec :=
  if s.ship.alive = true then
    let m := (integrate f g k s dt).1
    let hit := m.asteroids.any (hitShip m.ship)
    ({ rng := m.rng, width := m.width, height := m.height,
       ship := { pos := m.ship.pos, heading := m.ship.heading,
                 radius := m.ship.radius, alive := !hit },
       asteroids := m.asteroids.filter (keepAsteroid m.width m.height),
       elapsed := m.elapsed, spawnTimer := m.spawnTimer },
      if hit then some ⌊m.elapsed⌋ else none,
      (integrate f g k s dt).2)
  else (s, none, none)

/-- The frame-loop state: the engine plus `lastTime` (lines 44, 81, 108-116). -/
structure LoopState where
  lastTime : ℚ
  es : EngineState
deriving DecidableEq

/-- One invocation of `loop` (lines 108-116) at wall-clock timestamp `now`:
`dt = min((now - lastTime) / 1000, 0.05)`, then `update` (the draw pass
reads state only). -/
def loopStep (f g : ℚ → ℚ) (k : KeyState) (ls : LoopState) (now : ℚ) :
    LoopState × Option ℤ × Option SpawnRec :=
  let dt := min ((now - ls.lastTime) / 1000) (1/20)
  let r := update f g k ls.es dt
  (⟨now, r.1⟩, r.2.1, r.2.2)

/-- Run the frame loop over a list of timestamps, collecting every
`onGameOver` invocation in order. -/
def loopRun (f g : ℚ → ℚ) (k : KeyState) (ls : LoopState) (times : List ℚ) :
    LoopState × List ℤ :=
  match times with
  | [] => (ls, [])
  | t :: ts =>
    let r := loopStep f g k ls t
    let rest := loopRun f g k r.1 ts
    (rest.1, r.2.1.toList ++ rest.2)

/-- One simulation step's input: the time delta handed to `update` and the
key state read by it. -/
structure StepIn where
  dt : ℚ
  keys : KeyState
deriving DecidableEq

/-- Run `update` over a list of step inputs, collecting every `onGameOver`
invocation in order. -/
def runUpdates (f g : ℚ → ℚ) (s : EngineState) (steps : List StepIn) :
    EngineState × List ℤ :=
  match steps with
  | [] => (s, [])
  | i :: rest =>
    let r := update f g i.keys s i.dt
    let rr := runUpdates f g r.1 rest
    (rr.1, r.2.1.toList ++ rr.2)

/-- What an observer of one step sees: ship position and heading after the
step, and the parameters of the asteroid spawned during it, if any. -/
structure Obs where
  pos : Vec2
  heading : ℚ
  spawned : Option SpawnRec
deriving DecidableEq

/-- The per-step observation sequence from a given state. -/
def traceFrom (f g : ℚ → ℚ) (s : EngineState) (steps : List StepIn) :
    List Obs :=
  match steps with
  | [] => []
  | i :: rest =>
    let r := update f g i.keys s i.dt
    ⟨r.1.ship.pos, r.1.ship.heading, r.2.2⟩ :: traceFrom f g r.1 rest

/-- The observation sequence of a freshly constructed session. -/
def sessionTrace (f g : ℚ → ℚ) (w h : ℚ) (seed : ℤ) (steps : List StepIn) :
    List Obs :=
  traceFrom f g (initState w h seed) steps

/-! Concrete fixtures used to instantiate the theorems below.  `cos0`,
`cos1`, `sin0` are admissible models of `Math.cos` / `Math.sin` (their
values lie in `[-1, 1]`). -/

def cos0 : ℚ → ℚ := fun _ => 0

def cos1 : ℚ → ℚ := fun _ => 1

def sin0 : ℚ → ℚ := fun _ => 0

def keysLeft : KeyState := ⟨true, false⟩

def keysNone : KeyState := ⟨false, false⟩

/-- A live ship at the centre of a 100 x 100 field, no asteroids. -/
def stateMid : EngineState :=
  ⟨0, 100, 100, ⟨⟨50, 50⟩, 0, 12, true⟩, [], 0, 0⟩

/-- A live ship 6px left of the right edge of a 100 x 100 field. -/
def stateNearEdge : EngineState :=
  ⟨0, 100, 100, ⟨⟨94, 50⟩, 0, 12, true⟩, [], 0, 0⟩

/-- A 100 x 100 field with a radius-10 asteroid resting exactly at
`x = width + 100`, the cull margin boundary. -/
def stateAtMargin : EngineState :=
  ⟨0, 100, 100, ⟨⟨50, 50⟩, 0, 12, true⟩, [⟨⟨200, 50⟩, ⟨0, 0⟩, 10⟩], 0, 0⟩

/-- A 100 x 100 field with a radius-10 asteroid at `x = width + 99`,
strictly inside the cull margin. -/
def stateInMargin : EngineState :=
  ⟨0, 100, 100, ⟨⟨50, 50⟩, 0, 12, true⟩, [⟨⟨199, 50⟩, ⟨0, 0⟩, 10⟩], 0, 0⟩

/-- Radius-12 ship at (100,100) and a resting radius-15 asteroid at
(100,127): centre distance 27, exactly the sum of the radii. -/
def stateTouching : EngineState :=
  ⟨0, 1000, 1000, ⟨⟨100, 100⟩, 0, 12, true⟩, [⟨⟨100, 127⟩, ⟨0, 0⟩, 15⟩], 0, 0⟩

/-- Radius-12 ship at (100,100) and a resting radius-15 asteroid at
(100,126.9): centre distance 26.9, just under the sum of the radii. -/
def stateOverlap : EngineState :=
  ⟨0, 1000, 1000, ⟨⟨100, 100⟩, 0, 12, true⟩,
    [⟨⟨100, 1269/10⟩, ⟨0, 0⟩, 15⟩], 0, 0⟩

end Engine

namespace Engine

/-! ## Helper lemmas -/

/-- A dead ship short-circuits `update` (line 136). -/
theorem update_dead {f g : ℚ → ℚ} {k : KeyState} {s : EngineState} {dt : ℚ}
    (h : s.ship.alive = false) : update f g k s dt = (s, none, none) := by
  simp [update, h]

/-- Unfolding `update` on a live ship into the integrate / collide / cull
phases. -/
theorem update_alive {f g : ℚ → ℚ} {k : KeyState} {s : EngineState} {dt : ℚ}
    (h : s.ship.alive = true) :
    update f g k s dt =
      ({ rng := (integrate f g k s dt).1.rng,
         width := s.width, height := s.height,
         ship := { pos := (integrate f g k s dt).1.ship.pos,
                   heading := (integrate f g k s dt).1.ship.heading,
                   radius := s.ship.radius,
                   alive := !((integrate f g k s dt).1.asteroids.any
                     (hitShip (integrate f g k s dt).1.ship)) },
         asteroids := (integrate f g k s dt).1.asteroids.filter
           (keepAsteroid s.width s.height),
         elapsed := s.elapsed + dt,
         spawnTimer := (integrate f g k s dt).1.spawnTimer },
       if (integrate f g k s dt).1.asteroids.any
           (hitShip (integrate f g k s dt).1.ship)
         then some ⌊s.elapsed + dt⌋ else none,
       (integrate f g k s dt).2) := by
  unfold update
  rw [if_pos h]
  rfl

theorem integrate_elapsed (f g : ℚ → ℚ) (k : KeyState) (s : EngineState)
    (dt : ℚ) : (integrate f g k s dt).1.elapsed = s.elapsed + dt := rfl

theorem integrate_ship_pos (f g : ℚ → ℚ) (k : KeyState) (s : EngineState)
    (dt : ℚ) :
    (integrate f g k s dt).1.ship.pos =
      wrapV s.width s.height
        ⟨s.ship.pos.x + f (headingAfter k s dt).1 * 120 * dt,
         s.ship.pos.y + g (headingAfter k s dt).1 * 120 * dt⟩ := rfl

/-- The length of an observation trace equals the number of steps. -/
theorem traceFrom_length (f g : ℚ → ℚ) (s : EngineState)
    (steps : List StepIn) : (traceFrom f g s steps).length = steps.length := by
  induction steps generalizing s with
  | nil => rfl
  | cons i rest ih => simp [traceFrom, ih]

/-! ## Claim theorems -/

/-- C1: for any fixed seed and fixed sequence of (dt, steering-override)
step inputs, two independently constructed sessions produce identical
sequences of ship position and heading and identical spawned-obstacle
parameters, for as many steps as are supplied (in particular for 10,000);
the trace has one observation per step.  The simulation consumes no input
other than the seed and the step inputs, so equal inputs give equal
traces. -/
theorem session_determinism :
    ∀ (f g : ℚ → ℚ) (w h : ℚ) (seed1 seed2 : ℤ)
      (steps1 steps2 : List StepIn),
      seed1 = seed2 → steps1 = steps2 →
      sessionTrace f g w h seed1 steps1 = sessionTrace f g w h seed2 steps2 ∧
      (sessionTrace f g w h seed1 steps1).length = steps1.length := by
  intro f g w h seed1 seed2 steps1 steps2 hs hst
  subst hs
  subst hst
  exact ⟨rfl, traceFrom_length f g _ steps1⟩

/-- Witness for C1 at seed 42 and a concrete two-step input sequence. -/
theorem session_determinism_witness :
    sessionTrace (fun _ => 1) (fun _ => 0) 800 600 42
        [⟨16/1000, ⟨false, false⟩⟩, ⟨16/1000, ⟨true, false⟩⟩] =
      sessionTrace (fun _ => 1) (fun _ => 0) 800 600 42
        [⟨16/1000, ⟨false, false⟩⟩, ⟨16/1000, ⟨true, false⟩⟩] ∧
    (sessionTrace (fun _ => 1) (fun _ => 0) 800 600 42
        [⟨16/1000, ⟨false, false⟩⟩, ⟨16/1000, ⟨true, false⟩⟩]).length =
      ([⟨16/1000, ⟨false, false⟩⟩, ⟨16/1000, ⟨true, false⟩⟩] :
        List StepIn).length :=
  session_determinism (fun _ => 1) (fun _ => 0) 800 600 42 42 _ _ rfl rfl

/-- C9: at every elapsed time `t` the spawn interval equals
`max(0.3, 1.5 - 0.15 * floor(t / 10))` and never drops below the 0.3
floor (in particular for difficulty levels 0..10). -/
theorem spawnInterval_formula_and_floor :
    ∀ t : ℚ,
      spawnInterval t = max (3/10) (3/2 - (⌊t / 10⌋ : ℚ) * (15/100)) ∧
      (3/10) ≤ spawnInterval t := by
  intro t
  exact ⟨rfl, le_max_left _ _⟩

/-- C10: calling `update` when the ship is not alive returns the state
unchanged (every field, including the obstacle collection) and emits no
event and no spawn. -/
theorem update_dead_is_identity :
    ∀ (f g : ℚ → ℚ) (k : KeyState) (s : EngineState) (dt : ℚ),
      s.ship.alive = false → update f g k s dt = (s, none, none) := by
  intro f g k s dt h
  exact update_dead h

/-- Witness for C10: a dead state with one asteroid is untouched by a
0.05-second step. -/
theorem update_dead_is_identity_witness :
    update (fun _ => 1) (fun _ => 0) ⟨true, false⟩
        { rng := 7, width := 800, height := 600,
          ship := { pos := ⟨10, 20⟩, heading := 1, radius := 12,
                    alive := false },
          asteroids := [⟨⟨1, 2⟩, ⟨3, 4⟩, 5⟩], elapsed := 9,
          spawnTimer := 1 } (1/20) =
      ({ rng := 7, width := 800, height := 600,
         ship := { pos := ⟨10, 20⟩, heading := 1, radius := 12,
                   alive := false },
         asteroids := [⟨⟨1, 2⟩, ⟨3, 4⟩, 5⟩], elapsed := 9,
         spawnTimer := 1 }, none, none) :=
  update_dead_is_identity _ _ _ _ _ rfl

/-- C5 counterexample: constructing with field width 0 (non-positive) does
not fail: the state is built normally, the invalid width is stored
verbatim, and the ship is placed at `(0, 300)`. -/
theorem construction_accepts_zero_width :
    (initState 0 600 42).width = 0 ∧
    (initState 0 600 42).ship.pos = ⟨0, 300⟩ ∧
    (initState 0 600 42).ship.alive = true := by
  refine ⟨rfl, ?_, rfl⟩
  show Vec2.mk ((0 : ℚ) / 2) ((600 : ℚ) / 2) = Vec2.mk 0 300
  rw [Vec2.mk.injEq]
  norm_num

/-- C5 amended: the constructor performs no validation at all: every
width, height and seed is accepted, the dimensions are stored verbatim and
the ship starts alive at the field centre. -/
theorem construction_unvalidated :
    ∀ (w h : ℚ) (seed : ℤ),
      (initState w h seed).width = w ∧ (initState w h seed).height = h ∧
      (initState w h seed).ship.pos = ⟨w / 2, h / 2⟩ ∧
      (initState w h seed).ship.alive = true ∧
      (initState w h seed).elapsed = 0 ∧
      (initState w h seed).asteroids = [] := by
  intro w h seed
  exact ⟨rfl, rfl, rfl, rfl, rfl, rfl⟩

/-- C6 counterexample: `resize` to width -5 is accepted and the prior
width 800 is not kept. -/
theorem resize_accepts_nonpositive :
    (resize (initState 800 600 1) (-5) 10).width = -5 ∧
    ¬ (resize (initState 800 600 1) (-5) 10).width = 800 := by
  refine ⟨rfl, ?_⟩
  show ¬ ((-5 : ℚ) = 800)
  norm_num

/-- C6 amended: `resize` unconditionally overwrites the field dimensions
with the given values (positive or not) and changes nothing else. -/
theorem resize_unconditional :
    ∀ (s : EngineState) (w h : ℚ),
      (resize s w h).width = w ∧ (resize s w h).height = h ∧
      (resize s w h).ship = s.ship ∧
      (resize s w h).asteroids = s.asteroids ∧
      (resize s w h).rng = s.rng ∧ (resize s w h).elapsed = s.elapsed ∧
      (resize s w h).spawnTimer = s.spawnTimer :=
  fun _ _ _ => ⟨rfl, rfl, rfl, rfl, rfl, rfl, rfl⟩

end Engine

namespace Engine

/-- Per-step event characterisation on a live ship: either the ship
survives and no event is emitted, or it dies and the single event carries
the floor of the updated elapsed time. -/
theorem update_event_char (f g : ℚ → ℚ) (k : KeyState) (s : EngineState)
    (dt : ℚ) (h : s.ship.alive = true) :
    ((update f g k s dt).1.ship.alive = true ∧
      (update f g k s dt).2.1 = none) ∨
    ((update f g k s dt).1.ship.alive = false ∧
      (update f g k s dt).2.1 = some ⌊(update f g k s dt).1.elapsed⌋) := by
  rw [update_alive h]
  cases hh : (integrate f g k s dt).1.asteroids.any
      (hitShip (integrate f g k s dt).1.ship) with
  | false => left; simp [hh]
  | true => right; simp [hh]

/-- A dead state absorbs every further step: no state change, no events. -/
theorem runUpdates_dead {f g : ℚ → ℚ} {s : EngineState}
    (steps : List StepIn) (h : s.ship.alive = false) :
    runUpdates f g s steps = (s, []) := by
  induction steps with
  | nil => rfl
  | cons i rest ih => simp [runUpdates, update_dead h, ih]

/-- C4: over any run of steps from a live state, the termination callback
fires at most once; it fires exactly once iff the ship ends up dead, and
its argument is the floor of the elapsed time at death (which is also the
final elapsed time, since death freezes the state); it never fires if no
collision ever happens. -/
theorem termination_fires_exactly_once :
    ∀ (f g : ℚ → ℚ) (s : EngineState) (steps : List StepIn),
      s.ship.alive = true →
      (runUpdates f g s steps).2.length ≤ 1 ∧
      ((runUpdates f g s steps).1.ship.alive = false ↔
        (runUpdates f g s steps).2.length = 1) ∧
      ∀ v ∈ (runUpdates f g s steps).2,
        v = ⌊(runUpdates f g s steps).1.elapsed⌋ := by
  intro f g s steps
  induction steps generalizing s with
  | nil =>
    intro h
    refine ⟨by simp [runUpdates], ?_, by simp [runUpdates]⟩
    simp [runUpdates, h]
  | cons i rest ih =>
    intro h
    rcases update_event_char f g i.keys s i.dt h with ⟨ha, he⟩ | ⟨ha, he⟩
    · have hrec := ih _ ha
      simpa [runUpdates, he] using hrec
    · simp [runUpdates, he, runUpdates_dead rest ha, ha]

/-- Witness for C4: a two-step run from a state whose asteroid overlaps the
ship, so the collision fires on the first step. -/
theorem termination_fires_exactly_once_witness :
    (runUpdates cos0 sin0
        ⟨0, 1000, 1000, ⟨⟨100, 100⟩, 0, 12, true⟩,
          [⟨⟨100, 110⟩, ⟨0, 0⟩, 15⟩], 0, 0⟩
        [⟨0, keysLeft⟩, ⟨0, keysLeft⟩]).2.length ≤ 1 ∧
    ((runUpdates cos0 sin0
        ⟨0, 1000, 1000, ⟨⟨100, 100⟩, 0, 12, true⟩,
          [⟨⟨100, 110⟩, ⟨0, 0⟩, 15⟩], 0, 0⟩
        [⟨0, keysLeft⟩, ⟨0, keysLeft⟩]).1.ship.alive = false ↔
      (runUpdates cos0 sin0
        ⟨0, 1000, 1000, ⟨⟨100, 100⟩, 0, 12, true⟩,
          [⟨⟨100, 110⟩, ⟨0, 0⟩, 15⟩], 0, 0⟩
        [⟨0, keysLeft⟩, ⟨0, keysLeft⟩]).2.length = 1) ∧
    ∀ v ∈ (runUpdates cos0 sin0
        ⟨0, 1000, 1000, ⟨⟨100, 100⟩, 0, 12, true⟩,
          [⟨⟨100, 110⟩, ⟨0, 0⟩, 15⟩], 0, 0⟩
        [⟨0, keysLeft⟩, ⟨0, keysLeft⟩]).2,
      v = ⌊(runUpdates cos0 sin0
        ⟨0, 1000, 1000, ⟨⟨100, 100⟩, 0, 12, true⟩,
          [⟨⟨100, 110⟩, ⟨0, 0⟩, 15⟩], 0, 0⟩
        [⟨0, keysLeft⟩, ⟨0, keysLeft⟩]).1.elapsed⌋ :=
  termination_fires_exactly_once cos0 sin0
    ⟨0, 1000, 1000, ⟨⟨100, 100⟩, 0, 12, true⟩,
      [⟨⟨100, 110⟩, ⟨0, 0⟩, 15⟩], 0, 0⟩
    [⟨0, keysLeft⟩, ⟨0, keysLeft⟩] rfl

end Engine

namespace Engine

/-- A step with a non-negative `dt` never decreases the elapsed time. -/
theorem update_elapsed_mono (f g : ℚ → ℚ) (k : KeyState) (s : EngineState)
    (dt : ℚ) (h : 0 ≤ dt) : s.elapsed ≤ (update f g k s dt).1.elapsed := by
  cases ha : s.ship.alive with
  | false => rw [update_dead ha]
  | true =>
    rw [update_alive ha]
    show s.elapsed ≤ s.elapsed + dt
    linarith

/-- The elapsed time after one frame at timestamp `now ≥ lastTime`. -/
theorem loopStep_elapsed_mono (f g : ℚ → ℚ) (k : KeyState) (ls : LoopState)
    (now : ℚ) (h : ls.lastTime ≤ now) :
    ls.es.elapsed ≤ (loopStep f g k ls now).1.es.elapsed := by
  show ls.es.elapsed ≤
    (update f g k ls.es (min ((now - ls.lastTime) / 1000) (1/20))).1.elapsed
  apply update_elapsed_mono
  apply le_min
  · apply div_nonneg
    · linarith
    · norm_num
  · norm_num

/-- Monotone elapsed time over a whole frame run, given non-decreasing
timestamps. -/
theorem loopRun_elapsed_mono (f g : ℚ → ℚ) (k : KeyState) :
    ∀ (times : List ℚ) (ls : LoopState),
      List.Chain (· ≤ ·) ls.lastTime times →
      ls.es.elapsed ≤ (loopRun f g k ls times).1.es.elapsed := by
  intro times
  induction times with
  | nil => intro ls _; exact le_refl _
  | cons t ts ih =>
    intro ls hc
    rcases hc with _ | ⟨hle, hc2⟩
    have h1 := loopStep_elapsed_mono f g k ls t hle
    have h2 := ih (loopStep f g k ls t).1 hc2
    calc ls.es.elapsed ≤ (loopStep f g k ls t).1.es.elapsed := h1
      _ ≤ (loopRun f g k (loopStep f g k ls t).1 ts).1.es.elapsed := h2

/-- Once the ship is dead, a frame run leaves the engine state untouched. -/
theorem loopRun_dead_frozen (f g : ℚ → ℚ) (k : KeyState) :
    ∀ (times : List ℚ) (ls : LoopState),
      ls.es.ship.alive = false → (loopRun f g k ls times).1.es = ls.es := by
  intro times
  induction times with
  | nil => intro ls _; rfl
  | cons t ts ih =>
    intro ls h
    have hstep : (loopStep f g k ls t).1.es = ls.es := by
      show (update f g k ls.es (min ((t - ls.lastTime) / 1000) (1/20))).1 = ls.es
      rw [update_dead h]
    have := ih (loopStep f g k ls t).1 (by rw [hstep]; exact h)
    show (loopRun f g k (loopStep f g k ls t).1 ts).1.es = ls.es
    rw [this, hstep]

/-- C2 amended: for every non-decreasing sequence of frame timestamps the
elapsed time never decreases (in particular while the ship is alive), and
from the instant the ship's alive flag is false the entire engine state —
elapsed time included — is frozen for the rest of the run.  (For arbitrary
timestamp sequences the claim fails: see the counterexample.) -/
theorem elapsed_monotone_and_frozen :
    (∀ (f g : ℚ → ℚ) (k : KeyState) (ls : LoopState) (times : List ℚ),
        List.Chain (· ≤ ·) ls.lastTime times →
        ls.es.elapsed ≤ (loopRun f g k ls times).1.es.elapsed) ∧
    (∀ (f g : ℚ → ℚ) (k : KeyState) (ls : LoopState) (times : List ℚ),
        ls.es.ship.alive = false →
        (loopRun f g k ls times).1.es = ls.es) :=
  ⟨fun f g k ls times hc => loopRun_elapsed_mono f g k times ls hc,
   fun f g k ls times h => loopRun_dead_frozen f g k times ls h⟩

/-- Witness for C2 over a concrete two-frame run with timestamps 16 and 32
starting from `lastTime = 0`. -/
theorem elapsed_monotone_and_frozen_witness :
    stateMid.elapsed ≤
      (loopRun cos0 sin0 keysNone ⟨0, stateMid⟩ [16, 32]).1.es.elapsed :=
  elapsed_monotone_and_frozen.1 cos0 sin0 keysNone ⟨0, stateMid⟩ [16, 32]
    (List.Chain.cons (by norm_num) (List.Chain.cons (by norm_num)
      List.Chain.nil))

/-- C2 counterexample: one frame whose timestamp precedes `lastTime`
(1000 then 0) makes `dt = min(-1, 0.05) = -1`, and the elapsed time of a
live ship decreases from 0 to -1. -/
theorem elapsed_decreases_on_backward_timestamp :
    stateMid.ship.alive = true ∧
    (loopStep cos1 sin0 keysLeft ⟨1000, stateMid⟩ 0).1.es.elapsed <
      stateMid.elapsed := by
  constructor
  · rfl
  · show (update cos1 sin0 keysLeft stateMid
        (min ((0 - 1000) / 1000) (1/20))).1.elapsed < stateMid.elapsed
    rw [update_alive rfl]
    show stateMid.elapsed + min ((0 - 1000) / 1000) (1/20) < stateMid.elapsed
    have : min ((0 - 1000 : ℚ) / 1000) (1/20) = -1 := by
      rw [min_eq_left] <;> norm_num
    rw [this]
    norm_num

end Engine

namespace Engine

/-- The single-translation wrap keeps a coordinate inside the closed
interval `[0, w]`, provided it starts there and moves by at most one field
extent. -/
theorem wrapCoord_mem (w x d : ℚ) (hx0 : 0 ≤ x) (hxw : x ≤ w)
    (hd1 : -w ≤ d) (hd2 : d ≤ w) :
    0 ≤ wrapCoord w (x + d) ∧ wrapCoord w (x + d) ≤ w := by
  simp only [wrapCoord]
  split_ifs with h1 h2 h3 <;> constructor <;> linarith

/-- Bounds on the per-step ship displacement along one axis. -/
theorem displacement_bounds (c dt w : ℚ) (h1 : -1 ≤ c) (h2 : c ≤ 1)
    (hdt : 0 ≤ dt) (hw : 120 * dt ≤ w) :
    -w ≤ c * 120 * dt ∧ c * 120 * dt ≤ w := by
  constructor
  · nlinarith [mul_nonneg (by linarith : (0:ℚ) ≤ c + 1)
      (by linarith : (0:ℚ) ≤ 120 * dt)]
  · nlinarith [mul_nonneg (by linarith : (0:ℚ) ≤ 1 - c)
      (by linarith : (0:ℚ) ≤ 120 * dt)]

/-- C3 amended: whenever the cosine/sine models take values in `[-1, 1]`,
the step delta is non-negative and the per-step travel `120 * dt` does not
exceed either field extent, an update step keeps the ship inside the
CLOSED box `[0, width] x [0, height]`.  (The half-open box of the claim as
stated fails on the boundary: see the counterexample.) -/
theorem ship_stays_in_field :
    ∀ (f g : ℚ → ℚ) (k : KeyState) (s : EngineState) (dt : ℚ),
      (∀ a, -1 ≤ f a ∧ f a ≤ 1) → (∀ a, -1 ≤ g a ∧ g a ≤ 1) →
      0 ≤ dt → 120 * dt ≤ s.width → 120 * dt ≤ s.height →
      0 ≤ s.ship.pos.x → s.ship.pos.x ≤ s.width →
      0 ≤ s.ship.pos.y → s.ship.pos.y ≤ s.height →
      (0 ≤ (update f g k s dt).1.ship.pos.x ∧
        (update f g k s dt).1.ship.pos.x ≤ s.width) ∧
      (0 ≤ (update f g k s dt).1.ship.pos.y ∧
        (update f g k s dt).1.ship.pos.y ≤ s.height) := by
  intro f g k s dt hf hg hdt hw hh hx0 hxw hy0 hyh
  cases ha : s.ship.alive with
  | false => rw [update_dead ha]; exact ⟨⟨hx0, hxw⟩, ⟨hy0, hyh⟩⟩
  | true =>
    rw [update_alive ha]
    show (0 ≤ (integrate f g k s dt).1.ship.pos.x ∧
        (integrate f g k s dt).1.ship.pos.x ≤ s.width) ∧
      (0 ≤ (integrate f g k s dt).1.ship.pos.y ∧
        (integrate f g k s dt).1.ship.pos.y ≤ s.height)
    rw [integrate_ship_pos]
    have hfb := hf (headingAfter k s dt).1
    have hgb := hg (headingAfter k s dt).1
    have hdx := displacement_bounds (f (headingAfter k s dt).1) dt s.width
      hfb.1 hfb.2 hdt hw
    have hdy := displacement_bounds (g (headingAfter k s dt).1) dt s.height
      hgb.1 hgb.2 hdt hh
    exact ⟨wrapCoord_mem s.width s.ship.pos.x _ hx0 hxw hdx.1 hdx.2,
      wrapCoord_mem s.height s.ship.pos.y _ hy0 hyh hdy.1 hdy.2⟩

/-- Witness for C3 at the centre of a 100 x 100 field with `dt = 0.05`
and admissible trig models. -/
theorem ship_stays_in_field_witness :
    (0 ≤ (update cos1 sin0 keysLeft stateMid (1/20)).1.ship.pos.x ∧
      (update cos1 sin0 keysLeft stateMid (1/20)).1.ship.pos.x ≤
        stateMid.width) ∧
    (0 ≤ (update cos1 sin0 keysLeft stateMid (1/20)).1.ship.pos.y ∧
      (update cos1 sin0 keysLeft stateMid (1/20)).1.ship.pos.y ≤
        stateMid.height) :=
  ship_stays_in_field cos1 sin0 keysLeft stateMid (1/20)
    (fun _ => by constructor <;> norm_num [cos1])
    (fun _ => by constructor <;> norm_num [sin0])
    (by norm_num) (by norm_num [stateMid]) (by norm_num [stateMid])
    (by norm_num [stateMid]) (by norm_num [stateMid])
    (by norm_num [stateMid]) (by norm_num [stateMid])

/-- C3 counterexample: the ship at `x = 94` heading right (cosine 1) with
`dt = 0.05` lands exactly on `x = width = 100`; `wrap` leaves it there, so
the position after the step is NOT inside the half-open box
`[0, width) x [0, height)`. -/
theorem ship_reaches_closed_boundary :
    (update cos1 sin0 keysLeft stateNearEdge (1/20)).1.ship.pos.x = 100 ∧
    ¬ ((update cos1 sin0 keysLeft stateNearEdge (1/20)).1.ship.pos.x <
        stateNearEdge.width) := by
  have hx : (update cos1 sin0 keysLeft stateNearEdge (1/20)).1.ship.pos.x
      = 100 := by
    rw [update_alive rfl]
    show ((integrate cos1 sin0 keysLeft stateNearEdge (1/20)).1.ship.pos).x
      = 100
    rw [integrate_ship_pos]
    show wrapCoord stateNearEdge.width
      (stateNearEdge.ship.pos.x +
        cos1 (headingAfter keysLeft stateNearEdge (1/20)).1 * 120 * (1/20))
      = 100
    have : stateNearEdge.ship.pos.x +
        cos1 (headingAfter keysLeft stateNearEdge (1/20)).1 * 120 * (1/20)
        = 100 := by
      norm_num [stateNearEdge, cos1]
    rw [this]
    unfold wrapCoord
    norm_num [stateNearEdge]
  refine ⟨hx, ?_⟩
  rw [hx]
  show ¬ ((100 : ℚ) < 100)
  norm_num

end Engine

namespace Engine

/-- When the spawn timer has not reached the interval, the post-motion
asteroid list is just the old list advanced by `dt`. -/
theorem integrate_asteroids_no_spawn (f g : ℚ → ℚ) (k : KeyState)
    (s : EngineState) (dt : ℚ)
    (h : ¬ (spawnInterval (s.elapsed + dt) ≤ s.spawnTimer + dt)) :
    (integrate f g k s dt).1.asteroids = s.asteroids.map (moveAsteroid dt) := by
  simp only [integrate]
  rw [if_neg h]

/-- C7 amended: after the motion (and spawn) phase of a live step, an
asteroid of the post-motion collection survives the cull exactly when it is
strictly within 100px of the field on every side; equivalently it is
removed when it is at least 100px outside on some side (the boundary case
`x = width + 100`, exactly 100px out, is removed, which is where the
claim's "more than" reading fails). -/
theorem cull_exactly_outside_margin :
    ∀ (f g : ℚ → ℚ) (k : KeyState) (s : EngineState) (dt : ℚ),
      s.ship.alive = true →
      ∀ a : Asteroid,
        (a ∈ (update f g k s dt).1.asteroids ↔
          a ∈ (integrate f g k s dt).1.asteroids ∧
          (-100 < a.pos.x ∧ a.pos.x < s.width + 100 ∧
           -100 < a.pos.y ∧ a.pos.y < s.height + 100)) := by
  intro f g k s dt h a
  rw [update_alive h]
  show a ∈ List.filter (keepAsteroid s.width s.height)
      (integrate f g k s dt).1.asteroids ↔ _
  rw [List.mem_filter]
  simp [keepAsteroid, Bool.and_eq_true, decide_eq_true_eq, and_assoc]

/-- Witness for C7: the asteroid resting at `x = width + 99` (inside the
margin) of `stateInMargin` is characterised by the cull condition. -/
theorem cull_exactly_outside_margin_witness :
    (⟨⟨199, 50⟩, ⟨0, 0⟩, 10⟩ : Asteroid) ∈
        (update cos0 sin0 keysLeft stateInMargin 0).1.asteroids ↔
      (⟨⟨199, 50⟩, ⟨0, 0⟩, 10⟩ : Asteroid) ∈
        (integrate cos0 sin0 keysLeft stateInMargin 0).1.asteroids ∧
      (-100 < (199 : ℚ) ∧ (199 : ℚ) < stateInMargin.width + 100 ∧
       -100 < (50 : ℚ) ∧ (50 : ℚ) < stateInMargin.height + 100) :=
  cull_exactly_outside_margin cos0 sin0 keysLeft stateInMargin 0 rfl
    ⟨⟨199, 50⟩, ⟨0, 0⟩, 10⟩

/-- C7 counterexample: the asteroid whose post-motion position is exactly
`x = width + 100` — outside by exactly the margin, NOT by more than it —
is nonetheless removed: the collection after the step is empty. -/
theorem cull_removes_at_exact_margin :
    (integrate cos0 sin0 keysLeft stateAtMargin 0).1.asteroids =
      [⟨⟨200, 50⟩, ⟨0, 0⟩, 10⟩] ∧
    ¬ (stateAtMargin.width + 100 < 200) ∧ ¬ ((200 : ℚ) < -100) ∧
    ¬ (stateAtMargin.height + 100 < 50) ∧ ¬ ((50 : ℚ) < -100) ∧
    (update cos0 sin0 keysLeft stateAtMargin 0).1.asteroids = [] := by
  have hns : ¬ (spawnInterval (stateAtMargin.elapsed + 0) ≤
      stateAtMargin.spawnTimer + 0) := by
    norm_num [stateAtMargin, spawnInterval, difficulty, max_le_iff]
  have hlist : (integrate cos0 sin0 keysLeft stateAtMargin 0).1.asteroids =
      [⟨⟨200, 50⟩, ⟨0, 0⟩, 10⟩] := by
    rw [integrate_asteroids_no_spawn _ _ _ _ _ hns]
    norm_num [stateAtMargin, moveAsteroid]
  refine ⟨hlist, by norm_num [stateAtMargin], by norm_num,
    by norm_num [stateAtMargin], by norm_num, ?_⟩
  rw [update_alive rfl]
  show List.filter (keepAsteroid stateAtMargin.width stateAtMargin.height)
      (integrate cos0 sin0 keysLeft stateAtMargin 0).1.asteroids = []
  rw [hlist]
  norm_num [List.filter_cons, keepAsteroid, stateAtMargin]

end Engine

namespace Engine

/-- Boolean fact used to read the alive flag off the collision test. -/
theorem not_eq_false_iff (b : Bool) : ((!b) = false ↔ b = true) := by
  cases b <;> simp

/-- The ship position after `integrate` on a resting centre ship when the
trig models are the constant functions `cos0` / `sin0` and `dt = 0`. -/
theorem integrate_pos_rest (s : EngineState) (hx : 0 ≤ s.ship.pos.x)
    (hxw : s.ship.pos.x ≤ s.width) (hy : 0 ≤ s.ship.pos.y)
    (hyh : s.ship.pos.y ≤ s.height) :
    (integrate cos0 sin0 keysLeft s 0).1.ship.pos = s.ship.pos := by
  rw [integrate_ship_pos]
  have hx1 : s.ship.pos.x + cos0 (headingAfter keysLeft s 0).1 * 120 * 0 =
      s.ship.pos.x := by ring
  have hy1 : s.ship.pos.y + sin0 (headingAfter keysLeft s 0).1 * 120 * 0 =
      s.ship.pos.y := by
    show s.ship.pos.y + (0 : ℚ) * 120 * 0 = s.ship.pos.y
    ring
  show wrapV s.width s.height _ = s.ship.pos
  rw [wrapV, hx1, hy1]
  have wx : wrapCoord s.width s.ship.pos.x = s.ship.pos.x := by
    simp only [wrapCoord]
    rw [if_neg (by linarith : ¬ s.ship.pos.x < 0)]
    rw [if_neg (by linarith : ¬ s.width < s.ship.pos.x)]
  have wy : wrapCoord s.height s.ship.pos.y = s.ship.pos.y := by
    simp only [wrapCoord]
    rw [if_neg (by linarith : ¬ s.ship.pos.y < 0)]
    rw [if_neg (by linarith : ¬ s.height < s.ship.pos.y)]
  rw [wx, wy]

/-- C8: on a live step, the ship dies exactly when some post-motion
asteroid strictly overlaps it (squared distance strictly below the squared
sum of radii); at the exact touching distance 27 = 12 + 15 the radius-12
ship at (100,100) and the radius-15 asteroid at (100,127) do NOT collide,
while at distance 26.9 they do. -/
theorem collision_iff_strict_overlap :
    (∀ (f g : ℚ → ℚ) (k : KeyState) (s : EngineState) (dt : ℚ),
        s.ship.alive = true →
        ((update f g k s dt).1.ship.alive = false ↔
          ∃ a ∈ (integrate f g k s dt).1.asteroids,
            ((integrate f g k s dt).1.ship.pos.x - a.pos.x) *
                ((integrate f g k s dt).1.ship.pos.x - a.pos.x) +
              ((integrate f g k s dt).1.ship.pos.y - a.pos.y) *
                ((integrate f g k s dt).1.ship.pos.y - a.pos.y) <
              ((integrate f g k s dt).1.ship.radius + a.radius) ^ 2)) ∧
    (update cos0 sin0 keysLeft stateTouching 0).1.ship.alive = true ∧
    (update cos0 sin0 keysLeft stateOverlap 0).1.ship.alive = false := by
  refine ⟨?_, ?_, ?_⟩
  · intro f g k s dt h
    rw [update_alive h]
    show (!(integrate f g k s dt).1.asteroids.any
        (hitShip (integrate f g k s dt).1.ship)) = false ↔ _
    rw [not_eq_false_iff, List.any_eq_true]
    simp only [hitShip, decide_eq_true_eq]
  · have hns : ¬ (spawnInterval (stateTouching.elapsed + 0) ≤
        stateTouching.spawnTimer + 0) := by
      norm_num [stateTouching, spawnInterval, difficulty, max_le_iff]
    have hlist : (integrate cos0 sin0 keysLeft stateTouching 0).1.asteroids =
        [⟨⟨100, 127⟩, ⟨0, 0⟩, 15⟩] := by
      rw [integrate_asteroids_no_spawn _ _ _ _ _ hns]
      norm_num [stateTouching, moveAsteroid]
    have hpos : (integrate cos0 sin0 keysLeft stateTouching 0).1.ship.pos =
        ⟨100, 100⟩ :=
      integrate_pos_rest stateTouching (by norm_num [stateTouching])
        (by norm_num [stateTouching]) (by norm_num [stateTouching])
        (by norm_num [stateTouching])
    have hrad : (integrate cos0 sin0 keysLeft stateTouching 0).1.ship.radius
        = 12 := rfl
    rw [update_alive rfl]
    show (!(integrate cos0 sin0 keysLeft stateTouching 0).1.asteroids.any
        (hitShip (integrate cos0 sin0 keysLeft stateTouching 0).1.ship)) =
      true
    rw [hlist]
    norm_num [List.any_cons, List.any_nil, hitShip, hpos, hrad]
  · have hns : ¬ (spawnInterval (stateOverlap.elapsed + 0) ≤
        stateOverlap.spawnTimer + 0) := by
      norm_num [stateOverlap, spawnInterval, difficulty, max_le_iff]
    have hlist : (integrate cos0 sin0 keysLeft stateOverlap 0).1.asteroids =
        [⟨⟨100, 1269/10⟩, ⟨0, 0⟩, 15⟩] := by
      rw [integrate_asteroids_no_spawn _ _ _ _ _ hns]
      norm_num [stateOverlap, moveAsteroid]
    have hpos : (integrate cos0 sin0 keysLeft stateOverlap 0).1.ship.pos =
        ⟨100, 100⟩ :=
      integrate_pos_rest stateOverlap (by norm_num [stateOverlap])
        (by norm_num [stateOverlap]) (by norm_num [stateOverlap])
        (by norm_num [stateOverlap])
    have hrad : (integrate cos0 sin0 keysLeft stateOverlap 0).1.ship.radius
        = 12 := rfl
    rw [update_alive rfl]
    show (!(integrate cos0 sin0 keysLeft stateOverlap 0).1.asteroids.any
        (hitShip (integrate cos0 sin0 keysLeft stateOverlap 0).1.ship)) =
      false
    rw [hlist]
    norm_num [List.any_cons, List.any_nil, hitShip, hpos, hrad]

/-- Witness for C8: the general collision characterisation instantiated at
the exact-touching configuration. -/
theorem collision_iff_strict_overlap_witness :
    (update cos0 sin0 keysLeft stateTouching 0).1.ship.alive = false ↔
      ∃ a ∈ (integrate cos0 sin0 keysLeft stateTouching 0).1.asteroids,
        ((integrate cos0 sin0 keysLeft stateTouching 0).1.ship.pos.x -
              a.pos.x) *
            ((integrate cos0 sin0 keysLeft stateTouching 0).1.ship.pos.x -
              a.pos.x) +
          ((integrate cos0 sin0 keysLeft stateTouching 0).1.ship.pos.y -
              a.pos.y) *
            ((integrate cos0 sin0 keysLeft stateTouching 0).1.ship.pos.y -
              a.pos.y) <
          ((integrate cos0 sin0 keysLeft stateTouching 0).1.ship.radius +
              a.radius) ^ 2 :=
  collision_iff_strict_overlap.1 cos0 sin0 keysLeft stateTouching 0 rfl

end Engine
